import Mathlib

/-!
Verification of the conservative-raster coverage geometry generator in
src/src/gpu/ccpr/GrCCCoverageProcessor_VSImpl.cpp.

The development shallowly embeds, over Nat / Int / Rat:
- the bit-packed vertex-metadata codec (pack_vertex_data and its helpers,
  lines 17-51 of the source) and the shift-and-mask field extraction the
  emitted vertex shader performs on the packed word;
- the static topology tables (kTriangleVertices, kTriangleIndicesAsStrips,
  kTriangleIndicesAsTris, kHull4AndEdgeVertices, kHull4AndEdgeIndicesAsStrips,
  kHull4AndEdgeIndicesAsTris, lines 53-211), transcribed entry for entry via
  the same constexpr helper functions the source uses;
- the winding remap performed at the top of emitVertexPosition
  (clockwise_indices, lines 315-333);
- the bloat-direction rotation cascade (the switch on bloatidx with
  fallthrough, lines 371-390);
- the triangle-pass coverage computation before the invert-flag step
  (lines 396-422), with Shader::CalcEdgeCoverageAtBloatVertex treated as an
  uninterpreted function, i.e. its two results passed in as parameters;
- the wind-method configuration logic of onEmitCode (lines 249-262) and the
  assertions of initVS (lines 492-503).

C arithmetic on int32_t is modelled by Nat: every packed word fits in 12 bits
and every table value is nonnegative, so no overflow or sign behavior is lost.
-/

/-! ### Vertex metadata codec (source lines 17-51) -/

def kVertexData_LeftNeighborIdShift : Nat := 10

def kVertexData_RightNeighborIdShift : Nat := 8

def kVertexData_BloatIdxShift : Nat := 6

def kVertexData_InvertNegativeCoverageBit : Nat := 1 <<< 5

def kVertexData_IsCornerBit : Nat := 1 <<< 4

def kVertexData_IsEdgeBit : Nat := 1 <<< 3

def kVertexData_IsHullBit : Nat := 1 <<< 2

/-- Source pack_vertex_data (lines 29-36). In C the parameter extraData
defaults to 0; call sites that omit it pass 0 explicitly here. -/
def pack_vertex_data (leftNeighborID rightNeighborID bloatIdx cornerID extraData : Nat) : Nat :=
  (leftNeighborID <<< kVertexData_LeftNeighborIdShift) |||
  (rightNeighborID <<< kVertexData_RightNeighborIdShift) |||
  (bloatIdx <<< kVertexData_BloatIdxShift) |||
  cornerID ||| extraData

/-- Source hull_vertex_data (lines 38-41). -/
def hull_vertex_data (cornerID bloatIdx n : Nat) : Nat :=
  pack_vertex_data ((cornerID + n - 1) % n) ((cornerID + 1) % n) bloatIdx cornerID
    kVertexData_IsHullBit

/-- Source edge_vertex_data (lines 43-46): both neighbor fields carry leftID
and the cornerId field carries rightID. -/
def edge_vertex_data (leftID rightID bloatIdx extraData : Nat) : Nat :=
  pack_vertex_data leftID leftID bloatIdx rightID (kVertexData_IsEdgeBit ||| extraData)

/-- Source triangle_corner_vertex_data (lines 48-51). -/
def triangle_corner_vertex_data (cornerID bloatIdx : Nat) : Nat :=
  pack_vertex_data ((cornerID + 2) % 3) ((cornerID + 1) % 3) bloatIdx cornerID
    kVertexData_IsCornerBit

/-! ### Static topology tables (source lines 53-211) -/

/-- Source kTriangleVertices (lines 53-99), transcribed entry for entry. -/
def kTriangleVertices : List Nat := [
  hull_vertex_data 0 0 3, hull_vertex_data 0 1 3, hull_vertex_data 0 2 3,
  hull_vertex_data 1 0 3, hull_vertex_data 1 1 3, hull_vertex_data 1 2 3,
  hull_vertex_data 2 0 3, hull_vertex_data 2 1 3, hull_vertex_data 2 2 3,

  edge_vertex_data 0 1 0 0, edge_vertex_data 0 1 1 0, edge_vertex_data 0 1 2 0,
  edge_vertex_data 1 0 0 kVertexData_InvertNegativeCoverageBit,
  edge_vertex_data 1 0 1 kVertexData_InvertNegativeCoverageBit,
  edge_vertex_data 1 0 2 kVertexData_InvertNegativeCoverageBit,

  edge_vertex_data 1 2 0 0, edge_vertex_data 1 2 1 0, edge_vertex_data 1 2 2 0,
  edge_vertex_data 2 1 0 kVertexData_InvertNegativeCoverageBit,
  edge_vertex_data 2 1 1 kVertexData_InvertNegativeCoverageBit,
  edge_vertex_data 2 1 2 kVertexData_InvertNegativeCoverageBit,

  edge_vertex_data 2 0 0 0, edge_vertex_data 2 0 1 0, edge_vertex_data 2 0 2 0,
  edge_vertex_data 0 2 0 kVertexData_InvertNegativeCoverageBit,
  edge_vertex_data 0 2 1 kVertexData_InvertNegativeCoverageBit,
  edge_vertex_data 0 2 2 kVertexData_InvertNegativeCoverageBit,

  triangle_corner_vertex_data 0 0, triangle_corner_vertex_data 0 1,
  triangle_corner_vertex_data 0 2, triangle_corner_vertex_data 0 3,

  triangle_corner_vertex_data 1 0, triangle_corner_vertex_data 1 1,
  triangle_corner_vertex_data 1 2, triangle_corner_vertex_data 1 3,

  triangle_corner_vertex_data 2 0, triangle_corner_vertex_data 2 1,
  triangle_corner_vertex_data 2 2, triangle_corner_vertex_data 2 3]

/-- Source kRestartStrip (line 103): the primitive-restart sentinel. -/
def kRestartStrip : Nat := 0xffff

/-- Source kTriangleIndicesAsStrips (lines 105-114). -/
def kTriangleIndicesAsStrips : List Nat := [
  1, 2, 0, 3, 8, kRestartStrip,
  4, 5, 3, 6, 8, 7, kRestartStrip,
  10, 9, 11, 14, 12, 13, kRestartStrip,
  16, 15, 17, 20, 18, 19, kRestartStrip,
  22, 21, 23, 26, 24, 25, kRestartStrip,
  27, 28, 30, 29, kRestartStrip,
  31, 32, 34, 33, kRestartStrip,
  35, 36, 38, 37]

/-- Source kTriangleIndicesAsTris (lines 116-157). -/
def kTriangleIndicesAsTris : List Nat := [
  1, 2, 0,
  2, 3, 0,
  0, 3, 8,

  4, 5, 3,
  5, 6, 3,
  3, 6, 8,
  6, 7, 8,

  10, 9, 11,
  9, 14, 11,
  11, 14, 12,
  14, 13, 12,

  16, 15, 17,
  15, 20, 17,
  17, 20, 18,
  20, 19, 18,

  22, 21, 23,
  21, 26, 23,
  23, 26, 24,
  26, 25, 24,

  27, 28, 30,
  28, 29, 30,

  31, 32, 34,
  32, 33, 34,

  35, 36, 38,
  36, 37, 38]

/-- Source kHull4AndEdgeVertices (lines 161-181). -/
def kHull4AndEdgeVertices : List Nat := [
  hull_vertex_data 0 0 4, hull_vertex_data 0 1 4, hull_vertex_data 0 2 4,
  hull_vertex_data 1 0 4, hull_vertex_data 1 1 4, hull_vertex_data 1 2 4,
  hull_vertex_data 2 0 4, hull_vertex_data 2 1 4, hull_vertex_data 2 2 4,
  hull_vertex_data 3 0 4, hull_vertex_data 3 1 4, hull_vertex_data 3 2 4,

  edge_vertex_data 0 3 0 kVertexData_InvertNegativeCoverageBit,
  edge_vertex_data 0 3 1 0,
  edge_vertex_data 0 3 2 0,
  edge_vertex_data 3 0 0 0,
  edge_vertex_data 3 0 1 0,
  edge_vertex_data 3 0 2 kVertexData_InvertNegativeCoverageBit]

/-- Source kHull4AndEdgeIndicesAsStrips (lines 185-189). -/
def kHull4AndEdgeIndicesAsStrips : List Nat := [
  1, 0, 2, 11, 3, 5, 4, kRestartStrip,
  7, 6, 8, 5, 9, 11, 10, kRestartStrip,
  13, 12, 14, 17, 15, 16]

/-- Source kHull4AndEdgeIndicesAsTris (lines 191-211). -/
def kHull4AndEdgeIndicesAsTris : List Nat := [
  1, 0, 2,
  0, 11, 2,
  2, 11, 3,
  11, 5, 3,
  3, 5, 4,

  7, 6, 8,
  6, 5, 8,
  8, 5, 9,
  5, 11, 9,
  9, 11, 10,

  13, 12, 14,
  12, 17, 14,
  14, 17, 15,
  17, 16, 15]

/-! ### Shader-side field extraction

The emitted vertex shader reads fields back out of the packed word by
shifting and masking (source lines 329-333, 348, 371, 399, 405, 430). -/

def unpackLeft (vd : Nat) : Nat := (vd >>> kVertexData_LeftNeighborIdShift) &&& 3

def unpackRight (vd : Nat) : Nat := (vd >>> kVertexData_RightNeighborIdShift) &&& 3

def unpackBloatIdx (vd : Nat) : Nat := (vd >>> kVertexData_BloatIdxShift) &&& 3

def unpackCornerId (vd : Nat) : Nat := vd &&& 3

def unpackIsHull (vd : Nat) : Bool := (vd &&& kVertexData_IsHullBit) != 0

def unpackIsEdge (vd : Nat) : Bool := (vd &&& kVertexData_IsEdgeBit) != 0

def unpackIsCorner (vd : Nat) : Bool := (vd &&& kVertexData_IsCornerBit) != 0

def unpackInvertFlag (vd : Nat) : Bool := (vd &&& kVertexData_InvertNegativeCoverageBit) != 0

/-- The extraData word formed from the four individual flag bits, in the bit
positions the source constants assign them. -/
def flagsWord (isHull isEdge isCorner invertNeg : Bool) : Nat :=
  (if isHull then kVertexData_IsHullBit else 0) |||
  (if isEdge then kVertexData_IsEdgeBit else 0) |||
  (if isCorner then kVertexData_IsCornerBit else 0) |||
  (if invertNeg then kVertexData_InvertNegativeCoverageBit else 0)

/-! ### Winding remap (source lines 315-333) -/

/-- The constant the shader subtracts the packed word from when the wind is
not positive (the hex literal built at source lines 318-321). -/
def reverse_constant (numSides : Nat) : Nat :=
  ((numSides - 1) <<< kVertexData_LeftNeighborIdShift) |||
  ((numSides - 1) <<< kVertexData_RightNeighborIdShift) |||
  (((1 <<< kVertexData_RightNeighborIdShift) - 1) ^^^ 3) |||
  (numSides - 1)

/-- Source line 316: clockwise_indices = wind > 0 ? vertexdata : C - vertexdata.
The subtraction never underflows on table data (the constant dominates every
packed word of the corresponding topology), so Nat subtraction is faithful. -/
def clockwise_indices (numSides : Nat) (wind : Int) (vertexdata : Nat) : Nat :=
  if wind > 0 then vertexdata else reverse_constant numSides - vertexdata

/-- Source line 329: corner = pts[clockwise_indices & 3]. -/
def select_corner (ci : Nat) : Nat := ci &&& 3

/-- Source lines 330-331: left = pts[clockwise_indices >> 10] (no mask). -/
def select_left (ci : Nat) : Nat := ci >>> kVertexData_LeftNeighborIdShift

/-- Source lines 332-333: right = pts[(clockwise_indices >> 8) & 3]. -/
def select_right (ci : Nat) : Nat := (ci >>> kVertexData_RightNeighborIdShift) &&& 3

/-! ### Bloat-direction rotation cascade (source lines 371-390) -/

/-- One 90-degree clockwise rotation, exactly the shader expression
float2(-bloatdir.y, +bloatdir.x). -/
def rot90cw (v : Int × Int) : Int × Int := (-v.2, v.1)

/-- Iterated 90-degree clockwise rotation. -/
def rotIter : Nat → Int × Int → Int × Int
  | 0, v => v
  | n + 1, v => rot90cw (rotIter n v)

/-- The switch on bloatidx with fallthrough (source lines 373-390), applied to
the bloat direction entering the switch. The case-3 label is only emitted for
the triangle render pass; with any other pass a bloatidx of 3 matches no case
and the switch body is skipped, exactly as in C. -/
def bloatdirSwitch (trianglePass : Bool) (bloatidx : Nat) (ne : Bool × Bool)
    (d : Int × Int) : Int × Int :=
  let reach3 := trianglePass && (bloatidx == 3)
  let reach2 := reach3 || (bloatidx == 2)
  let reach1 := reach2 || (bloatidx == 1)
  let d1 := if reach3 then rot90cw d else d
  let d2 := if reach2 && (ne.1 && ne.2) then rot90cw d1 else d1
  if reach1 && (ne.1 || ne.2) then rot90cw d2 else d2

/-- Spec-side definition, following the claim C1 wording: the cumulative
number of rotations as a cascading accumulation over bloatIdx, to be compared
with the source-derived bloatdirSwitch. -/
def specRotationCount : Nat → Bool × Bool → Nat
  | 0, _ => 0
  | 1, ne => if ne.1 || ne.2 then 1 else 0
  | 2, ne => (if ne.1 && ne.2 then 1 else 0) + (if ne.1 || ne.2 then 1 else 0)
  | _, ne => 1 + (if ne.1 && ne.2 then 1 else 0) + (if ne.1 || ne.2 then 1 else 0)

/-! ### Triangle-pass coverage before the invert step (source lines 396-422)

Shader::CalcEdgeCoverageAtBloatVertex is an external shading routine (it is
not part of this translation unit); the claim treats it as uninterpreted, so
its two results are passed in: leftCov stands for its value on
(left, corner, bloatdir) and rightCov for its value on (corner, right,
bloatdir). -/

def triangleCoverage (vd : Nat) (leftCov rightCov : ℚ) : ℚ :=
  let bloatidx := (vd >>> kVertexData_BloatIdxShift) &&& 3
  let coverage : ℚ := 1
  let coverage :=
    if (vd &&& (kVertexData_IsEdgeBit ||| kVertexData_IsCornerBit)) != 0 then leftCov
    else coverage
  if (vd &&& kVertexData_IsCornerBit) != 0 then
    let left_coverage := coverage
    let right_coverage := rightCov
    let coverage : ℚ := if bloatidx = 1 then -1 else 0
    let coverage := if (bloatidx + 3) &&& 3 < 2 then coverage - left_coverage else coverage
    if bloatidx < 2 then coverage - right_coverage else coverage
  else coverage

/-! ### Strip and list index decoding (for the table-equivalence claims) -/

/-- Split an index sequence at each restart sentinel. -/
def splitOnRestart : List Nat → List (List Nat)
  | [] => [[]]
  | x :: xs =>
    match splitOnRestart xs with
    | [] => if x = kRestartStrip then [[], []] else [[x]]
    | r :: rs => if x = kRestartStrip then [] :: r :: rs else (x :: r) :: rs

/-- Tail of the triangle-strip decoding: a and b are the two most recent
vertices, the parity flag swaps the first two vertices of every other
triangle. -/
def stripTrisAux (flip : Bool) (a b : Nat) : List Nat → List (Nat × Nat × Nat)
  | [] => []
  | c :: rest => (if flip then (b, a, c) else (a, b, c)) :: stripTrisAux (!flip) b c rest

/-- Standard triangle-strip decoding of one restart-free run, with
alternating winding. -/
def stripTrisFrom (flip : Bool) : List Nat → List (Nat × Nat × Nat)
  | a :: b :: rest => stripTrisAux flip a b rest
  | _ => []

/-- Plain triangle-list decoding: consecutive triples. -/
def listTris : List Nat → List (Nat × Nat × Nat)
  | a :: b :: c :: rest => (a, b, c) :: listTris rest
  | _ => []

/-- All triangles of a strip-with-restarts sequence. -/
def stripTriangles (strip : List Nat) : List (Nat × Nat × Nat) :=
  ((splitOnRestart strip).map (stripTrisFrom false)).flatten

/-- Sort the three vertex ids of a triangle ascending, so triangles compare as
unordered sets of ids. -/
def sort3 (t : Nat × Nat × Nat) : Nat × Nat × Nat :=
  let a := min t.1 (min t.2.1 t.2.2)
  let c := max t.1 (max t.2.1 t.2.2)
  (a, t.1 + t.2.1 + t.2.2 - a - c, c)

/-- A triangle is degenerate when it repeats a vertex id. -/
def isDegenerate (t : Nat × Nat × Nat) : Bool :=
  t.1 == t.2.1 || t.2.1 == t.2.2 || t.1 == t.2.2

/-- Drop degenerate triangles and normalize each remaining one to its sorted
id triple. -/
def normalizedTriangles (ts : List (Nat × Nat × Nat)) : List (Nat × Nat × Nat) :=
  (ts.filter (fun t => !isDegenerate t)).map sort3

/-! ### Render pass and wind method configuration (source lines 249-262, 439-529) -/

inductive RenderPass
  | kTriangles
  | kQuadratics
  | kCubics
  deriving DecidableEq

inductive WindMethod
  | kCrossProduct
  | kInstanceData
  deriving DecidableEq

/-- Which value the emitted vertex shader assigns to wind: the sign of the
analytically computed doubled area (kCrossProduct branch, source lines
250-256) or the w component of the instance X attribute (kInstanceData
branch, source line 261). -/
inductive WindSource
  | analyticSign
  | instanceAttrib
  deriving DecidableEq

/-- Source lines 249-262: the wind source is selected by the wind method
alone. -/
def emitWindSource : WindMethod → WindSource
  | WindMethod.kCrossProduct => WindSource.analyticSign
  | WindMethod.kInstanceData => WindSource.instanceAttrib

/-- Modelled from the spec: numInputPoints() is declared in
GrCCCoverageProcessor.h, which is not among the provided sources. The spec
states an instance is the path's 3-point triangle (Triangles), the 3 control
points of a quadratic, or the 4 control points of a cubic bounding quad. -/
def numInputPoints : RenderPass → Nat
  | RenderPass.kTriangles => 3
  | RenderPass.kQuadratics => 3
  | RenderPass.kCubics => 4

/-- Source lines 258-259: the kInstanceData branch of onEmitCode asserts
3 == numInputPoints(). -/
def onEmitCodeWindAssert (rp : RenderPass) (wm : WindMethod) : Bool :=
  match wm with
  | WindMethod.kCrossProduct => true
  | WindMethod.kInstanceData => numInputPoints rp == 3

/-- Source line 493: inside the (kCubics or kInstanceData) branch of initVS,
SkASSERT(kCrossProduct == fWindMethod or 3 == numInputPoints()). -/
def initVSWindAssert (rp : RenderPass) (wm : WindMethod) : Bool :=
  if rp = RenderPass.kCubics ∨ wm = WindMethod.kInstanceData then
    (wm == WindMethod.kCrossProduct) || (numInputPoints rp == 3)
  else true

/-! ## Helper lemmas

Bounded-quantifier facts about packed words, each proved by evaluation over
the finite field domain. They are split into single statements because the
nested bounded-forall Decidable instance does not synthesize for larger
conjunctions. -/

theorem pack_unpack_left : ∀ l, l < 4 → ∀ r, r < 4 → ∀ b, b < 4 → ∀ c, c < 4 →
    ∀ fH fE fC fI : Bool,
    unpackLeft (pack_vertex_data l r b c (flagsWord fH fE fC fI)) = l := by decide

theorem pack_unpack_right : ∀ l, l < 4 → ∀ r, r < 4 → ∀ b, b < 4 → ∀ c, c < 4 →
    ∀ fH fE fC fI : Bool,
    unpackRight (pack_vertex_data l r b c (flagsWord fH fE fC fI)) = r := by decide

theorem pack_unpack_bloatidx : ∀ l, l < 4 → ∀ r, r < 4 → ∀ b, b < 4 → ∀ c, c < 4 →
    ∀ fH fE fC fI : Bool,
    unpackBloatIdx (pack_vertex_data l r b c (flagsWord fH fE fC fI)) = b := by decide

theorem pack_unpack_cornerid : ∀ l, l < 4 → ∀ r, r < 4 → ∀ b, b < 4 → ∀ c, c < 4 →
    ∀ fH fE fC fI : Bool,
    unpackCornerId (pack_vertex_data l r b c (flagsWord fH fE fC fI)) = c := by decide

theorem pack_unpack_ishull : ∀ l, l < 4 → ∀ r, r < 4 → ∀ b, b < 4 → ∀ c, c < 4 →
    ∀ fH fE fC fI : Bool,
    unpackIsHull (pack_vertex_data l r b c (flagsWord fH fE fC fI)) = fH := by decide

theorem pack_unpack_isedge : ∀ l, l < 4 → ∀ r, r < 4 → ∀ b, b < 4 → ∀ c, c < 4 →
    ∀ fH fE fC fI : Bool,
    unpackIsEdge (pack_vertex_data l r b c (flagsWord fH fE fC fI)) = fE := by decide

theorem pack_unpack_iscorner : ∀ l, l < 4 → ∀ r, r < 4 → ∀ b, b < 4 → ∀ c, c < 4 →
    ∀ fH fE fC fI : Bool,
    unpackIsCorner (pack_vertex_data l r b c (flagsWord fH fE fC fI)) = fC := by decide

theorem pack_unpack_invertflag : ∀ l, l < 4 → ∀ r, r < 4 → ∀ b, b < 4 → ∀ c, c < 4 →
    ∀ fH fE fC fI : Bool,
    unpackInvertFlag (pack_vertex_data l r b c (flagsWord fH fE fC fI)) = fI := by decide

theorem corner_pack_edge_test : ∀ l, l < 4 → ∀ r, r < 4 → ∀ b, b < 4 → ∀ c, c < 4 →
    ∀ fH fE fI : Bool,
    ((pack_vertex_data l r b c (flagsWord fH fE true fI) &&&
        (kVertexData_IsEdgeBit ||| kVertexData_IsCornerBit)) != 0) = true := by decide

theorem corner_pack_corner_test : ∀ l, l < 4 → ∀ r, r < 4 → ∀ b, b < 4 → ∀ c, c < 4 →
    ∀ fH fE fI : Bool,
    ((pack_vertex_data l r b c (flagsWord fH fE true fI) &&&
        kVertexData_IsCornerBit) != 0) = true := by decide

theorem corner_pack_bloat : ∀ l, l < 4 → ∀ r, r < 4 → ∀ b, b < 4 → ∀ c, c < 4 →
    ∀ fH fE fI : Bool,
    (pack_vertex_data l r b c (flagsWord fH fE true fI) >>>
        kVertexData_BloatIdxShift) &&& 3 = b := by decide

/-! ## Claim theorems -/

/-- C1: for every vertex record and instance, the bloat direction produced by
the bloatidx switch equals the direction entering it rotated 90 degrees
clockwise a cumulative number of times given by the cascading accumulation of
the claim: bloatIdx 0 never rotates; bloatIdx 1 rotates once iff either
component of notEqual holds; bloatIdx 2 adds a rotation iff both components
hold on top of the bloatIdx 1 contribution; bloatIdx 3 (corner records only,
whose notEqual has been forced to (true, true) at source line 354) adds one
unconditional rotation on top of the bloatIdx 2 and 1 contributions. -/
theorem C1_rotation_cascade (trianglePass : Bool) (bloatidx : Nat) (ne : Bool × Bool)
    (d : Int × Int) (hb : bloatidx < 4)
    (hcorner : bloatidx = 3 → trianglePass = true ∧ ne = (true, true)) :
    bloatdirSwitch trianglePass bloatidx ne d = rotIter (specRotationCount bloatidx ne) d := by
  obtain ⟨n1, n2⟩ := ne
  interval_cases bloatidx <;> cases trianglePass <;> cases n1 <;> cases n2 <;>
    first
      | rfl
      | (obtain ⟨htp, hne⟩ := hcorner rfl; simp_all)

/-- Witness for C1 at a concrete corner record input. -/
theorem C1_rotation_cascade_witness :
    bloatdirSwitch true 3 (true, true) (1, 0) = rotIter (specRotationCount 3 (true, true)) (1, 0) :=
  C1_rotation_cascade true 3 (true, true) (1, 0) (by decide) (by decide)

/-- C2: for every corner record of the triangle render pass, with
CalcEdgeCoverageAtBloatVertex uninterpreted (leftCov its value on
(left, corner, bloatdir), rightCov its value on (corner, right, bloatdir)),
the coverage computed before the invert-flag step equals
((bloatIdx == 1) ? -1 : 0), minus leftCov exactly when ((bloatIdx+3) and 3)
is below 2, minus rightCov exactly when bloatIdx is below 2. -/
theorem C2_corner_coverage : ∀ l, l < 4 → ∀ r, r < 4 → ∀ b, b < 4 → ∀ c, c < 4 →
    ∀ fH fE fI : Bool, ∀ leftCov rightCov : ℚ,
    triangleCoverage (pack_vertex_data l r b c (flagsWord fH fE true fI)) leftCov rightCov =
      (if b = 1 then (-1 : ℚ) else 0) -
      (if (b + 3) &&& 3 < 2 then leftCov else 0) -
      (if b < 2 then rightCov else 0) := by
  intro l hl r hr b hb c hc fH fE fI leftCov rightCov
  have h1 := corner_pack_edge_test l hl r hr b hb c hc fH fE fI
  have h2 := corner_pack_corner_test l hl r hr b hb c hc fH fE fI
  have h3 := corner_pack_bloat l hl r hr b hb c hc fH fE fI
  simp only [triangleCoverage, h1, h2, h3, if_true]
  split_ifs <;> ring

/-- Witness for C2 at a concrete corner record and concrete rational
coverages. -/
theorem C2_corner_coverage_witness :
    triangleCoverage (pack_vertex_data 0 1 0 2 (flagsWord false false true false))
        (1 / 2) (1 / 3) =
      (if (0 : Nat) = 1 then (-1 : ℚ) else 0) -
      (if (0 + 3) &&& 3 < 2 then (1 / 2 : ℚ) else 0) -
      (if (0 : Nat) < 2 then (1 / 3 : ℚ) else 0) :=
  C2_corner_coverage 0 (by decide) 1 (by decide) 0 (by decide) 2 (by decide)
    false false false (1 / 2) (1 / 3)

/-- C7: unpacking a packed word by shifting and masking recovers every field,
for all field values in range and every flag combination; in particular the
bit ranges do not overlap. -/
theorem C7_codec_roundtrip : ∀ l, l < 4 → ∀ r, r < 4 → ∀ b, b < 4 → ∀ c, c < 4 →
    ∀ fH fE fC fI : Bool,
    unpackLeft (pack_vertex_data l r b c (flagsWord fH fE fC fI)) = l ∧
    unpackRight (pack_vertex_data l r b c (flagsWord fH fE fC fI)) = r ∧
    unpackBloatIdx (pack_vertex_data l r b c (flagsWord fH fE fC fI)) = b ∧
    unpackCornerId (pack_vertex_data l r b c (flagsWord fH fE fC fI)) = c ∧
    unpackIsHull (pack_vertex_data l r b c (flagsWord fH fE fC fI)) = fH ∧
    unpackIsEdge (pack_vertex_data l r b c (flagsWord fH fE fC fI)) = fE ∧
    unpackIsCorner (pack_vertex_data l r b c (flagsWord fH fE fC fI)) = fC ∧
    unpackInvertFlag (pack_vertex_data l r b c (flagsWord fH fE fC fI)) = fI := by
  intro l hl r hr b hb c hc fH fE fC fI
  exact ⟨pack_unpack_left l hl r hr b hb c hc fH fE fC fI,
    pack_unpack_right l hl r hr b hb c hc fH fE fC fI,
    pack_unpack_bloatidx l hl r hr b hb c hc fH fE fC fI,
    pack_unpack_cornerid l hl r hr b hb c hc fH fE fC fI,
    pack_unpack_ishull l hl r hr b hb c hc fH fE fC fI,
    pack_unpack_isedge l hl r hr b hb c hc fH fE fC fI,
    pack_unpack_iscorner l hl r hr b hb c hc fH fE fC fI,
    pack_unpack_invertflag l hl r hr b hb c hc fH fE fC fI⟩

/-- Witness for C7 at one concrete field assignment. -/
theorem C7_codec_roundtrip_witness :
    unpackLeft (pack_vertex_data 1 2 3 0 (flagsWord true false true false)) = 1 ∧
    unpackRight (pack_vertex_data 1 2 3 0 (flagsWord true false true false)) = 2 ∧
    unpackBloatIdx (pack_vertex_data 1 2 3 0 (flagsWord true false true false)) = 3 ∧
    unpackCornerId (pack_vertex_data 1 2 3 0 (flagsWord true false true false)) = 0 ∧
    unpackIsHull (pack_vertex_data 1 2 3 0 (flagsWord true false true false)) = true ∧
    unpackIsEdge (pack_vertex_data 1 2 3 0 (flagsWord true false true false)) = false ∧
    unpackIsCorner (pack_vertex_data 1 2 3 0 (flagsWord true false true false)) = true ∧
    unpackInvertFlag (pack_vertex_data 1 2 3 0 (flagsWord true false true false)) = false :=
  C7_codec_roundtrip 1 (by decide) 2 (by decide) 3 (by decide) 0 (by decide)
    true false true false

/-! ## Wind remap helper lemmas -/

theorem remap3_corner : ∀ l, l < 3 → ∀ r, r < 3 → ∀ b, b < 4 → ∀ c, c < 3 →
    ∀ fH fE fC fI : Bool,
    select_corner (reverse_constant 3 - pack_vertex_data l r b c (flagsWord fH fE fC fI)) =
      3 - 1 - c := by decide

theorem remap3_left : ∀ l, l < 3 → ∀ r, r < 3 → ∀ b, b < 4 → ∀ c, c < 3 →
    ∀ fH fE fC fI : Bool,
    select_left (reverse_constant 3 - pack_vertex_data l r b c (flagsWord fH fE fC fI)) =
      3 - 1 - l := by decide

theorem remap3_right : ∀ l, l < 3 → ∀ r, r < 3 → ∀ b, b < 4 → ∀ c, c < 3 →
    ∀ fH fE fC fI : Bool,
    select_right (reverse_constant 3 - pack_vertex_data l r b c (flagsWord fH fE fC fI)) =
      3 - 1 - r := by decide

theorem remap4_corner : ∀ l, l < 4 → ∀ r, r < 4 → ∀ b, b < 4 → ∀ c, c < 4 →
    ∀ fH fE fC fI : Bool,
    select_corner (reverse_constant 4 - pack_vertex_data l r b c (flagsWord fH fE fC fI)) =
      4 - 1 - c := by decide

theorem remap4_left : ∀ l, l < 4 → ∀ r, r < 4 → ∀ b, b < 4 → ∀ c, c < 4 →
    ∀ fH fE fC fI : Bool,
    select_left (reverse_constant 4 - pack_vertex_data l r b c (flagsWord fH fE fC fI)) =
      4 - 1 - l := by decide

theorem remap4_right : ∀ l, l < 4 → ∀ r, r < 4 → ∀ b, b < 4 → ∀ c, c < 4 →
    ∀ fH fE fC fI : Bool,
    select_right (reverse_constant 4 - pack_vertex_data l r b c (flagsWord fH fE fC fI)) =
      4 - 1 - r := by decide

theorem select_pack_corner : ∀ l, l < 4 → ∀ r, r < 4 → ∀ b, b < 4 → ∀ c, c < 4 →
    ∀ fH fE fC fI : Bool,
    select_corner (pack_vertex_data l r b c (flagsWord fH fE fC fI)) = c := by decide

theorem select_pack_left : ∀ l, l < 4 → ∀ r, r < 4 → ∀ b, b < 4 → ∀ c, c < 4 →
    ∀ fH fE fC fI : Bool,
    select_left (pack_vertex_data l r b c (flagsWord fH fE fC fI)) = l := by decide

theorem select_pack_right : ∀ l, l < 4 → ∀ r, r < 4 → ∀ b, b < 4 → ∀ c, c < 4 →
    ∀ fH fE fC fI : Bool,
    select_right (pack_vertex_data l r b c (flagsWord fH fE fC fI)) = r := by decide

/-- C3 counterexample: the negative-wind remap of the triangle topology is not
a XOR with any fixed mask. If remap(v) = v XOR m held for a fixed m, then m
would equal remap(v) XOR v for every packed word v of the table; the hull
record hull_vertex_data 0 0 3 forces m = 0x8FE while the edge record
edge_vertex_data 0 1 0 0 forces m = 0xAFC. -/
theorem C3_not_a_fixed_xor :
    clockwise_indices 3 (-1) (hull_vertex_data 0 0 3) ^^^ hull_vertex_data 0 0 3 ≠
    clockwise_indices 3 (-1) (edge_vertex_data 0 1 0 0) ^^^ edge_vertex_data 0 1 0 0 := by
  decide

/-- C3 (amended): when the resolved wind is negative, the evaluator remaps the
packed word by subtracting it from a fixed per-topology constant (not by a
fixed bit-XOR; for the 4-point topology the constant is 0xFFF, where the
subtraction coincides with a XOR). This reverses the traversal order of the
selected corner, left-neighbor and right-neighbor point indices: each index i
of an N-gon becomes (N-1)-i. When the wind is positive the packed word is
used unchanged. -/
theorem C3_wind_reversal : ∀ numSides : Nat, numSides = 3 ∨ numSides = 4 →
    ∀ l r b c : Nat, l < numSides → r < numSides → c < numSides → b < 4 →
    ∀ fH fE fC fI : Bool, ∀ wind : Int,
    (0 < wind →
      select_corner (clockwise_indices numSides wind
        (pack_vertex_data l r b c (flagsWord fH fE fC fI))) = c ∧
      select_left (clockwise_indices numSides wind
        (pack_vertex_data l r b c (flagsWord fH fE fC fI))) = l ∧
      select_right (clockwise_indices numSides wind
        (pack_vertex_data l r b c (flagsWord fH fE fC fI))) = r) ∧
    (wind < 0 →
      select_corner (clockwise_indices numSides wind
        (pack_vertex_data l r b c (flagsWord fH fE fC fI))) = numSides - 1 - c ∧
      select_left (clockwise_indices numSides wind
        (pack_vertex_data l r b c (flagsWord fH fE fC fI))) = numSides - 1 - l ∧
      select_right (clockwise_indices numSides wind
        (pack_vertex_data l r b c (flagsWord fH fE fC fI))) = numSides - 1 - r) := by
  intro ns hns l r b c hl hr hc hb fH fE fC fI wind
  have hl4 : l < 4 := by rcases hns with h | h <;> omega
  have hr4 : r < 4 := by rcases hns with h | h <;> omega
  have hc4 : c < 4 := by rcases hns with h | h <;> omega
  constructor
  · intro hw
    have heq : clockwise_indices ns wind (pack_vertex_data l r b c (flagsWord fH fE fC fI)) =
        pack_vertex_data l r b c (flagsWord fH fE fC fI) := by
      unfold clockwise_indices
      rw [if_pos hw]
    rw [heq]
    exact ⟨select_pack_corner l hl4 r hr4 b hb c hc4 fH fE fC fI,
      select_pack_left l hl4 r hr4 b hb c hc4 fH fE fC fI,
      select_pack_right l hl4 r hr4 b hb c hc4 fH fE fC fI⟩
  · intro hw
    have hnot : ¬ wind > 0 := by omega
    have heq : clockwise_indices ns wind (pack_vertex_data l r b c (flagsWord fH fE fC fI)) =
        reverse_constant ns - pack_vertex_data l r b c (flagsWord fH fE fC fI) := by
      unfold clockwise_indices
      rw [if_neg hnot]
    rw [heq]
    rcases hns with h | h <;> subst h
    · exact ⟨remap3_corner l hl r hr b hb c hc fH fE fC fI,
        remap3_left l hl r hr b hb c hc fH fE fC fI,
        remap3_right l hl r hr b hb c hc fH fE fC fI⟩
    · exact ⟨remap4_corner l hl r hr b hb c hc fH fE fC fI,
        remap4_left l hl r hr b hb c hc fH fE fC fI,
        remap4_right l hl r hr b hb c hc fH fE fC fI⟩

/-- Witness for C3 at a concrete triangle-topology record and negative wind. -/
theorem C3_wind_reversal_witness :
    select_corner (clockwise_indices 3 (-1)
      (pack_vertex_data 0 1 0 2 (flagsWord true false false false))) = 3 - 1 - 2 ∧
    select_left (clockwise_indices 3 (-1)
      (pack_vertex_data 0 1 0 2 (flagsWord true false false false))) = 3 - 1 - 0 ∧
    select_right (clockwise_indices 3 (-1)
      (pack_vertex_data 0 1 0 2 (flagsWord true false false false))) = 3 - 1 - 1 :=
  (C3_wind_reversal 3 (Or.inl rfl) 0 1 0 2 (by decide) (by decide) (by decide) (by decide)
    true false false false (-1)).2 (by decide)

/-- C4 counterexample: the generated index tables have different lengths from
the ones the claim states (39, 42, 17 and 15). -/
theorem C4_stated_sizes_wrong :
    (kTriangleIndicesAsStrips.length = 48 ∧ ¬ kTriangleIndicesAsStrips.length = 39) ∧
    (kTriangleIndicesAsTris.length = 75 ∧ ¬ kTriangleIndicesAsTris.length = 42) ∧
    (kHull4AndEdgeIndicesAsStrips.length = 22 ∧ ¬ kHull4AndEdgeIndicesAsStrips.length = 17) ∧
    (kHull4AndEdgeIndicesAsTris.length = 42 ∧ ¬ kHull4AndEdgeIndicesAsTris.length = 15) := by
  decide

/-- C4 (amended): the triangle topology has 39 vertex records (9 hull, 18
edge, 12 corner) with paired index tables of 48 strip entries (7 restart
sentinels, forming 8 restart-separated runs) or 75 plain triangle indices
encoding 25 triangles; the curve-quad topology has 18 vertex records (12
hull, 6 edge) with paired index tables of 22 strip entries (2 sentinels, 3
runs) or 42 plain indices encoding 14 triangles. -/
theorem C4_table_sizes :
    kTriangleVertices.length = 39 ∧
    (kTriangleVertices.filter (fun v => unpackIsHull v)).length = 9 ∧
    (kTriangleVertices.filter (fun v => unpackIsEdge v)).length = 18 ∧
    (kTriangleVertices.filter (fun v => unpackIsCorner v)).length = 12 ∧
    kTriangleIndicesAsStrips.length = 48 ∧
    (kTriangleIndicesAsStrips.filter (fun i => i == kRestartStrip)).length = 7 ∧
    (splitOnRestart kTriangleIndicesAsStrips).length = 8 ∧
    kTriangleIndicesAsTris.length = 75 ∧
    (listTris kTriangleIndicesAsTris).length = 25 ∧
    kHull4AndEdgeVertices.length = 18 ∧
    (kHull4AndEdgeVertices.filter (fun v => unpackIsHull v)).length = 12 ∧
    (kHull4AndEdgeVertices.filter (fun v => unpackIsEdge v)).length = 6 ∧
    kHull4AndEdgeIndicesAsStrips.length = 22 ∧
    (kHull4AndEdgeIndicesAsStrips.filter (fun i => i == kRestartStrip)).length = 2 ∧
    (splitOnRestart kHull4AndEdgeIndicesAsStrips).length = 3 ∧
    kHull4AndEdgeIndicesAsTris.length = 42 ∧
    (listTris kHull4AndEdgeIndicesAsTris).length = 14 := by
  decide

/-- C5: for each topology, the strip-with-restart sequence (decoded by the
standard triangle-strip rule with alternating winding, restarting at each
0xFFFF sentinel) and the plain triangle-list sequence triangulate into the
same multiset of non-degenerate triangles, with triangles compared as
unordered sets of vertex ids and repeated-id triangles ignored. -/
theorem C5_strip_list_equivalence :
    List.Perm (normalizedTriangles (stripTriangles kTriangleIndicesAsStrips))
      (normalizedTriangles (listTris kTriangleIndicesAsTris)) ∧
    List.Perm (normalizedTriangles (stripTriangles kHull4AndEdgeIndicesAsStrips))
      (normalizedTriangles (listTris kHull4AndEdgeIndicesAsTris)) := by
  decide

/-- C6 counterexample: the strip index sequences contain the restart sentinel
0xFFFF itself, which is not below the vertex-record count; position 5 of
kTriangleIndicesAsStrips is such an entry. -/
theorem C6_sentinel_not_in_bounds :
    kTriangleIndicesAsStrips.getD 5 0 = kRestartStrip ∧
    ¬ kTriangleIndicesAsStrips.getD 5 0 < kTriangleVertices.length := by
  decide

/-- C6 (amended): every entry of every generated index sequence other than
the restart sentinel 0xFFFF is less than the vertex-record count of its
topology (39 for the triangle tables, 18 for the curve-quad tables); the
plain-triangle-list tables contain no sentinel at all. -/
theorem C6_index_bounds :
    (∀ i ∈ kTriangleIndicesAsStrips, i = kRestartStrip ∨ i < kTriangleVertices.length) ∧
    (∀ i ∈ kTriangleIndicesAsTris, i < kTriangleVertices.length) ∧
    (∀ i ∈ kHull4AndEdgeIndicesAsStrips, i = kRestartStrip ∨ i < kHull4AndEdgeVertices.length) ∧
    (∀ i ∈ kHull4AndEdgeIndicesAsTris, i < kHull4AndEdgeVertices.length) := by
  decide

/-- Witness for C6 at the first entry of the triangle strip table. -/
theorem C6_index_bounds_witness :
    1 = kRestartStrip ∨ 1 < kTriangleVertices.length :=
  C6_index_bounds.1 1 (by decide)

/-- C8 counterexample: in the curve-quad table the two records
kHull4AndEdgeVertices[12] and kHull4AndEdgeVertices[13] belong to the same
edge direction (same left id 0 and same corner id 3) yet carry different
invertCoverage flags, so no direction of the shared edge has the flag on all
three of its bloat records. -/
theorem C8_quad_direction_mixed :
    unpackIsEdge (kHull4AndEdgeVertices.getD 12 0) = true ∧
    unpackIsEdge (kHull4AndEdgeVertices.getD 13 0) = true ∧
    unpackLeft (kHull4AndEdgeVertices.getD 12 0) = unpackLeft (kHull4AndEdgeVertices.getD 13 0) ∧
    unpackCornerId (kHull4AndEdgeVertices.getD 12 0) =
      unpackCornerId (kHull4AndEdgeVertices.getD 13 0) ∧
    unpackInvertFlag (kHull4AndEdgeVertices.getD 12 0) = true ∧
    unpackInvertFlag (kHull4AndEdgeVertices.getD 13 0) = false := by
  decide

/-- C8 (amended): in the triangle table, one traversal direction of each of
the three edge pairs carries invertCoverage on all three of its bloat records
while the opposite direction's three records do not; in the curve-quad table
the shared edge's six records carry invertCoverage on exactly two of them,
bloat record 0 of direction (0,3) and bloat record 2 of direction (3,0). The
eighteen triangle edge records are entries 9 to 26 and the six curve-quad
edge records are entries 12 to 17 of their tables. -/
theorem C8_invert_flag_pattern :
    kTriangleVertices.filter (fun v => unpackIsEdge v) = (kTriangleVertices.drop 9).take 18 ∧
    ((kTriangleVertices.drop 9).take 18).map unpackInvertFlag =
      [false, false, false, true, true, true,
       false, false, false, true, true, true,
       false, false, false, true, true, true] ∧
    kHull4AndEdgeVertices.filter (fun v => unpackIsEdge v) = kHull4AndEdgeVertices.drop 12 ∧
    (kHull4AndEdgeVertices.drop 12).map unpackInvertFlag =
      [true, false, false, false, false, true] := by
  decide

/-- C9 counterexample: the configuration the claim requires for the Cubics
render pass (instance-data wind) is rejected by the assertions embedded in
the code itself, while the cross-product configuration is accepted and makes
the emitted shader compute wind analytically from the points. -/
theorem C9_cubics_instance_rejected :
    initVSWindAssert RenderPass.kCubics WindMethod.kInstanceData = false ∧
    onEmitCodeWindAssert RenderPass.kCubics WindMethod.kInstanceData = false ∧
    initVSWindAssert RenderPass.kCubics WindMethod.kCrossProduct = true ∧
    onEmitCodeWindAssert RenderPass.kCubics WindMethod.kCrossProduct = true ∧
    emitWindSource WindMethod.kCrossProduct = WindSource.analyticSign := by
  decide

/-- C9 (amended): in every configuration that passes the code's assertions,
the Cubics render pass uses the cross-product wind method, so its wind is
computed analytically from the points (never read from instance data); and
instance-data winding occurs only when the instance has 3 input points. -/
theorem C9_wind_method : ∀ (rp : RenderPass) (wm : WindMethod),
    initVSWindAssert rp wm = true → onEmitCodeWindAssert rp wm = true →
    (rp = RenderPass.kCubics →
      wm = WindMethod.kCrossProduct ∧ emitWindSource wm = WindSource.analyticSign) ∧
    (wm = WindMethod.kInstanceData → numInputPoints rp = 3) := by
  intro rp wm
  cases rp <;> cases wm <;> decide

/-- Witness for C9 at the Cubics cross-product configuration. -/
theorem C9_wind_method_witness :
    (RenderPass.kCubics = RenderPass.kCubics →
      WindMethod.kCrossProduct = WindMethod.kCrossProduct ∧
      emitWindSource WindMethod.kCrossProduct = WindSource.analyticSign) ∧
    (WindMethod.kCrossProduct = WindMethod.kInstanceData →
      numInputPoints RenderPass.kCubics = 3) :=
  C9_wind_method RenderPass.kCubics WindMethod.kCrossProduct (by decide) (by decide)

/-- C10: every edge record packs the same value, the id of the edge's first
endpoint, into both neighbor fields and the edge's second endpoint into the
cornerId field; across both generated tables every edge record has equal
unpacked neighbor fields while every hull and corner record has two distinct
neighbor ids (the cyclically adjacent polygon vertices). -/
theorem C10_edge_neighbor_fields :
    (∀ l, l < 4 → ∀ r, r < 4 → ∀ b, b < 4 → ∀ inv : Bool,
      unpackLeft (edge_vertex_data l r b
          (if inv then kVertexData_InvertNegativeCoverageBit else 0)) = l ∧
      unpackRight (edge_vertex_data l r b
          (if inv then kVertexData_InvertNegativeCoverageBit else 0)) = l ∧
      unpackCornerId (edge_vertex_data l r b
          (if inv then kVertexData_InvertNegativeCoverageBit else 0)) = r) ∧
    (∀ vd ∈ kTriangleVertices ++ kHull4AndEdgeVertices,
      (unpackIsEdge vd = true → unpackLeft vd = unpackRight vd) ∧
      ((unpackIsHull vd = true ∨ unpackIsCorner vd = true) →
        unpackLeft vd ≠ unpackRight vd)) := by
  decide

/-- Witness for C10 at a concrete edge record. -/
theorem C10_edge_neighbor_fields_witness :
    unpackLeft (edge_vertex_data 0 1 0
        (if false then kVertexData_InvertNegativeCoverageBit else 0)) = 0 ∧
    unpackRight (edge_vertex_data 0 1 0
        (if false then kVertexData_InvertNegativeCoverageBit else 0)) = 0 ∧
    unpackCornerId (edge_vertex_data 0 1 0
        (if false then kVertexData_InvertNegativeCoverageBit else 0)) = 1 :=
  C10_edge_neighbor_fields.1 0 (by decide) 1 (by decide) 0 (by decide) false
